import Mathlib

/-!
Verification of the input-to-render synchronization controller of
`src/www/index.js` (wasm-game-tutorial).

The controller is embedded shallowly: the DOM state visible to the script
(the five elements named by `ELEMENT_IDS`, their contents, and the canvas
surface), the external render engine's stored parameters, and a trace of the
observable calls the controller makes (engine commits, canvas clears, render
invocations, log writes, field writes, listener attachments) are threaded
explicitly through Lean translations of `run`, `updateTriangle`,
`clearCanvas` and `logMessage`.  External fallible calls (the wasm imports
`set_depth`, `set_length`, `main_js`) are parameterised by an `Ext` record
saying whether each call returns normally or throws; a JS exception is an
`Except.error` carrying the message together with the state at the moment of
the throw.
-/

namespace WasmCtl

/-- Value of a JS numeric expression as produced by `parseFloat`: either NaN,
a signed infinity, or a rational (every finite float value is rational; the
controller's arithmetic on these values is exact, so no rounding is modelled). -/
inductive JsFloat where
  | nan
  | inf (pos : Bool)
  | num (q : Rat)
deriving DecidableEq

/-- The JS `isNaN` test on a `parseFloat` result. -/
def JsFloat.isNaN : JsFloat → Bool
  | .nan => true
  | _ => false

/-- Decimal digit test, as in the ECMAScript string numeric grammars. -/
def isDigitChar (c : Char) : Bool := '0' ≤ c && c ≤ '9'

def digitVal (c : Char) : Nat := c.toNat - '0'.toNat

/-- Value of a block of decimal digits. -/
def digitsVal (ds : List Char) : Nat := ds.foldl (fun a c => a * 10 + digitVal c) 0

def isHexDigitChar (c : Char) : Bool :=
  isDigitChar c || ('a' ≤ c && c ≤ 'f') || ('A' ≤ c && c ≤ 'F')

def hexDigitVal (c : Char) : Nat :=
  if isDigitChar c then digitVal c
  else if 'a' ≤ c && c ≤ 'f' then c.toNat - 'a'.toNat + 10
  else c.toNat - 'A'.toNat + 10

/-- Value of a block of hexadecimal digits. -/
def hexDigitsVal (ds : List Char) : Nat := ds.foldl (fun a c => a * 16 + hexDigitVal c) 0

/-- Leading-whitespace skipping done by `parseInt`/`parseFloat` (the ASCII
whitespace characters; the exotic Unicode space forms never reach the
controller and are not modelled). -/
def skipWs : List Char → List Char
  | [] => []
  | c :: cs => if c = ' ' || c = '\t' || c = '\n' || c = '\r' then skipWs cs else c :: cs

/-- Consume an optional leading sign, returning the sign as `1` or `-1`. -/
def splitSign : List Char → Int × List Char
  | '-' :: cs => (-1, cs)
  | '+' :: cs => (1, cs)
  | cs => (1, cs)

/-- JS `parseInt(s)` with no radix argument, as called at index.js:78:
skip whitespace, optional sign, then either a `0x`/`0X` hexadecimal literal
or a longest run of decimal digits; trailing junk is ignored; `none` is NaN. -/
def js_parseInt (s : String) : Option Int :=
  let cs := skipWs s.data
  let sg := (splitSign cs).1
  let cs1 := (splitSign cs).2
  let hexTail : Option (List Char) :=
    match cs1 with
    | '0' :: c :: rest => if c = 'x' || c = 'X' then some rest else none
    | _ => none
  match hexTail with
  | some rest =>
    let ds := rest.takeWhile isHexDigitChar
    if ds.isEmpty then none else some (sg * (hexDigitsVal ds : Int))
  | none =>
    let ds := cs1.takeWhile isDigitChar
    if ds.isEmpty then none else some (sg * (digitsVal ds : Int))

/-- JS `parseFloat(s)` as called at index.js:79: skip whitespace, optional
sign, then `Infinity` or a decimal literal `digits [. digits] [e sign digits]`
(with at least one digit before or after the point); the longest valid prefix
is taken and trailing junk ignored; `nan` when no prefix parses.  The value
`sign * (intDigits.fracDigits) * 10^exponent` is assembled as a single
`mkRat` of integer numerator and denominator. -/
def js_parseFloat (s : String) : JsFloat :=
  let cs := skipWs s.data
  let sg := (splitSign cs).1
  let cs1 := (splitSign cs).2
  if "Infinity".data.isPrefixOf cs1 then JsFloat.inf (sg = 1)
  else
    let intDs := cs1.takeWhile isDigitChar
    let rest1 := cs1.dropWhile isDigitChar
    let fracDs :=
      match rest1 with
      | '.' :: r => r.takeWhile isDigitChar
      | _ => []
    let rest2 :=
      match rest1 with
      | '.' :: r => r.dropWhile isDigitChar
      | _ => rest1
    if intDs.isEmpty && fracDs.isEmpty then JsFloat.nan
    else
      let mantNum : Int :=
        sg * ((digitsVal intDs * 10 ^ fracDs.length + digitsVal fracDs : Nat) : Int)
      let mantDen : Nat := 10 ^ fracDs.length
      let expVal : Int :=
        match rest2 with
        | c :: r =>
          if c = 'e' || c = 'E' then
            let esg := (splitSign r).1
            let eds := (splitSign r).2.takeWhile isDigitChar
            if eds.isEmpty then 0 else esg * (digitsVal eds : Int)
          else 0
        | [] => 0
      if expVal ≥ 0 then JsFloat.num (mkRat (mantNum * ((10 ^ expVal.toNat : Nat) : Int)) mantDen)
      else JsFloat.num (mkRat mantNum (mantDen * 10 ^ (-expVal).toNat))

/-- JS number-to-string coercion for an integer value, as happens at
index.js:56 when `get_depth()` is assigned to an input's `value`. -/
def jsIntToString (i : Int) : String := toString i

/-- Decimal rendering of the natural number `n` with a point inserted `k`
digits from the end, zero-padded so at least one digit precedes the point. -/
def decimalOfDigits (n k : Nat) : String :=
  let ds0 := Nat.toDigits 10 n
  let ds := if ds0.length ≥ k + 1 then ds0 else List.replicate (k + 1 - ds0.length) '0' ++ ds0
  String.mk (ds.take (ds.length - k)) ++ "." ++ String.mk (ds.drop (ds.length - k))

/-- JS number-to-string coercion for a `parseFloat`-style value, as happens at
index.js:57 when `get_length()` is assigned to an input's `value`.  Integers
print without a point; other finite values print in plain decimal with the
least number of fraction digits (every finite float value terminates in
decimal; the exponent forms JS uses beyond 1e21 never arise for this
controller's parameters).  Values whose denominator divides no power of ten
cannot come from a float and fall back to a fraction rendering. -/
def jsFloatToString : JsFloat → String
  | .nan => "NaN"
  | .inf true => "Infinity"
  | .inf false => "-Infinity"
  | .num q =>
    if q.den = 1 then toString q.num
    else
      match (List.range 400).find? (fun k => 10 ^ (k + 1) % q.den = 0) with
      | some k =>
        (if q.num < 0 then "-" else "")
          ++ decimalOfDigits (q.num.natAbs * (10 ^ (k + 1) / q.den)) (k + 1)
      | none => toString q.num ++ "/" ++ toString q.den

/-- Substring test used to state properties about log-entry texts. -/
def strContains (hay sub : String) : Bool :=
  (List.range (hay.data.length + 1)).any (fun i => sub.data.isPrefixOf (hay.data.drop i))

/-- The five element roles of `ELEMENT_IDS` (index.js:11), in `Object.entries`
order. -/
inductive ElemRole where
  | OUTPUT
  | DEPTH
  | LENGTH
  | DRAW
  | CANVAS
deriving DecidableEq

/-- The key names of `ELEMENT_IDS`. -/
def roleKey : ElemRole → String
  | .OUTPUT => "OUTPUT"
  | .DEPTH => "DEPTH"
  | .LENGTH => "LENGTH"
  | .DRAW => "DRAW"
  | .CANVAS => "CANVAS"

/-- The id values of `ELEMENT_IDS` (`element.id` of each bound element). -/
def roleId : ElemRole → String
  | .OUTPUT => "output"
  | .DEPTH => "depth"
  | .LENGTH => "length"
  | .DRAW => "draw"
  | .CANVAS => "canvas"

/-- `Object.entries(ELEMENT_IDS)` order. -/
def ELEMENT_ROLES : List ElemRole :=
  [ElemRole.OUTPUT, ElemRole.DEPTH, ElemRole.LENGTH, ElemRole.DRAW, ElemRole.CANVAS]

/-- Abstracts `element.constructor.name` as logged by `run` (index.js:51).
The concrete class names come from the page markup, which is outside the
controller; no verified property depends on these strings. -/
def constructorName : ElemRole → String
  | .OUTPUT => "HTMLPreElement"
  | .DEPTH => "HTMLInputElement"
  | .LENGTH => "HTMLInputElement"
  | .DRAW => "HTMLButtonElement"
  | .CANVAS => "HTMLCanvasElement"

/-- `Array.prototype.join(",")` as used at index.js:37. -/
def joinComma : List String → String
  | [] => ""
  | [x] => x
  | x :: y :: rest => x ++ "," ++ joinComma (y :: rest)

/-- The element-count message of index.js:29. -/
def foundMsg (elementsCount rolesCount : Nat) : String :=
  "Found [" ++ toString elementsCount ++ "/" ++ toString rolesCount ++ "] HTML elements"

/-- The DOM as the controller sees it: for OUTPUT, DEPTH and LENGTH presence
together with the text content (`innerText` resp. `value`); for DRAW and
CANVAS just presence; the canvas surface content is the list of render passes
painted since the last clear (empty = blank); `listeners` records the roles
whose element currently has the `input` listener attached. -/
structure Dom where
  output : Option String
  depth : Option String
  length : Option String
  drawPresent : Bool
  canvasPresent : Bool
  canvas : List (Int × JsFloat)
  listeners : List ElemRole
deriving DecidableEq

/-- `document.getElementById` success for each role. -/
def present (d : Dom) : ElemRole → Bool
  | .OUTPUT => d.output.isSome
  | .DEPTH => d.depth.isSome
  | .LENGTH => d.length.isSome
  | .DRAW => d.drawPresent
  | .CANVAS => d.canvasPresent

/-- The render engine's stored parameters (owned by the wasm module; read via
`get_depth`/`get_length`, written via `set_depth`/`set_length`). -/
structure Engine where
  depth : Int
  length : JsFloat
deriving DecidableEq

/-- Observable calls the controller makes, in order. -/
inductive Ev where
  | setDepth (d : Int)
  | setLength (l : JsFloat)
  | clearRect
  | renderCall
  | log (msg : String) (isError : Bool)
  | setFieldDepth (v : String)
  | setFieldLength (v : String)
  | addListener (r : ElemRole)
deriving DecidableEq

def isRenderEv : Ev → Bool
  | .renderCall => true
  | _ => false

def isClearEv : Ev → Bool
  | .clearRect => true
  | _ => false

def isCommitEv : Ev → Bool
  | .setDepth _ => true
  | .setLength _ => true
  | _ => false

def isErrorLogEv : Ev → Bool
  | .log _ true => true
  | _ => false

def isListenerEv : Ev → Bool
  | .addListener _ => true
  | _ => false

/-- Whole program state: DOM, engine, and the trace of calls made so far. -/
structure St where
  dom : Dom
  engine : Engine
  trace : List Ev
deriving DecidableEq

/-- Behaviour of the external wasm calls: `none` means the call returns
normally, `some e` means it throws a JS exception with message `e`. -/
structure Ext where
  setDepthFail : Option String
  setLengthFail : Option String
  mainJsFail : Option String
deriving DecidableEq

/-- All external calls return normally. -/
def extOk : Ext := { setDepthFail := none, setLengthFail := none, mainJsFail := none }

/-- A JS computation: either a final state or a thrown exception carrying the
message and the state at the moment of the throw. -/
abbrev JsResult := Except (String × St) St

/-- State reached by a computation, whether it returned or threw. -/
def stateOf : JsResult → St
  | .ok s => s
  | .error (_, s) => s

/-- Trace of a computation, whether it returned or threw. -/
def traceOf (r : JsResult) : List Ev := (stateOf r).trace

def exceptOk : JsResult → Bool
  | .ok _ => true
  | .error _ => false

/-- `logMessage(message, isError)` (index.js:106): appends `message + "\n"`
to the OUTPUT element's text when the element exists and `isError` is true,
and always writes to the console (recorded as a `log` trace event whose flag
distinguishes `console.error` from `console.log`). -/
def logMessage (msg : String) (isError : Bool) (s : St) : St :=
  let dom1 :=
    match s.dom.output, isError with
    | some t, true => { s.dom with output := some (t ++ msg ++ "\n") }
    | _, _ => s.dom
  { s with dom := dom1, trace := s.trace ++ [Ev.log msg isError] }

/-- `clearCanvas()` (index.js:96): if the CANVAS element is missing, log
"Canvas element not found" (non-error) and return; otherwise clear the whole
surface. -/
def clearCanvas (s : St) : St :=
  if !s.dom.canvasPresent then logMessage "Canvas element not found" false s
  else { s with dom := { s.dom with canvas := [] }, trace := s.trace ++ [Ev.clearRect] }

/-- The wasm import `set_depth(d)`: records the call; on normal return the
engine's stored depth becomes `d`. -/
def set_depth (ext : Ext) (d : Int) (s : St) : JsResult :=
  let s1 := { s with trace := s.trace ++ [Ev.setDepth d] }
  match ext.setDepthFail with
  | some e => .error (e, s1)
  | none => .ok { s1 with engine := { s1.engine with depth := d } }

/-- The wasm import `set_length(l)`: records the call; on normal return the
engine's stored length becomes `l`. -/
def set_length (ext : Ext) (l : JsFloat) (s : St) : JsResult :=
  let s1 := { s with trace := s.trace ++ [Ev.setLength l] }
  match ext.setLengthFail with
  | some e => .error (e, s1)
  | none => .ok { s1 with engine := { s1.engine with length := l } }

/-- The wasm import `get_depth()`. -/
def get_depth (s : St) : Int := s.engine.depth

/-- The wasm import `get_length()`. -/
def get_length (s : St) : JsFloat := s.engine.length

/-- The wasm import `main_js()`: records the render invocation; on normal
return one render pass with the engine's currently stored parameters is
painted onto the canvas (when the canvas exists). -/
def main_js (ext : Ext) (s : St) : JsResult :=
  let s1 := { s with trace := s.trace ++ [Ev.renderCall] }
  match ext.mainJsFail with
  | some e => .error (e, s1)
  | none =>
    .ok { s1 with dom := { s1.dom with canvas :=
      if s1.dom.canvasPresent then s1.dom.canvas ++ [(s1.engine.depth, s1.engine.length)]
      else s1.dom.canvas } }

/-- `updateTriangle()` (index.js:74): read and parse both fields; on a failed
parse log "Invalid input values" and return; otherwise `set_depth`,
`set_length`, `clearCanvas()`, `main_js()` in that order, each exception
propagating.  Reading `.value` of a missing element throws a TypeError. -/
def updateTriangle (ext : Ext) (s : St) : JsResult :=
  match s.dom.depth, s.dom.length with
  | some dv, some lv =>
    let depth := js_parseInt dv
    let lengthV := js_parseFloat lv
    if depth.isNone || lengthV.isNaN then
      .ok (logMessage "Invalid input values" true s)
    else
      match set_depth ext (depth.getD 0) s with
      | .error e => .error e
      | .ok s1 =>
        match set_length ext lengthV s1 with
        | .error e => .error e
        | .ok s2 => main_js ext (clearCanvas s2)
  | _, _ => .error ("Cannot read properties of null (reading value)", s)

/-- The event loop invoking the `input` listener attached at index.js:63:
the listener is `updateTriangle` itself, with no wrapper, so an exception
aborts the handler and escapes to the host with no controller-side catch. -/
def inputEvent (ext : Ext) (s : St) : St := stateOf (updateTriangle ext s)

/-- `depthInput.value = ...` (index.js:56), recorded in the trace. -/
def setDepthField (v : String) (s : St) : St :=
  { s with dom := { s.dom with depth := some v }, trace := s.trace ++ [Ev.setFieldDepth v] }

/-- `lengthInput.value = ...` (index.js:57), recorded in the trace. -/
def setLengthField (v : String) (s : St) : St :=
  { s with dom := { s.dom with length := some v }, trace := s.trace ++ [Ev.setFieldLength v] }

/-- `element.addEventListener("input", updateTriangle, ...)` (index.js:63),
recorded in the trace and in the DOM's listener set. -/
def addListenerTo (r : ElemRole) (s : St) : St :=
  { s with dom := { s.dom with listeners := s.dom.listeners ++ [r] },
           trace := s.trace ++ [Ev.addListener r] }

/-- The body of `run()`'s try block (index.js:20): write the OUTPUT banner
(throwing a TypeError when OUTPUT is missing), log, look up all five roles,
log the count, throw a single aggregated `Missing HTML elements` error when
any are absent, log the element types, copy the engine's stored parameters
into the two input fields, attach the `input` listener to the depth, length
and draw elements, and invoke `updateTriangle()` once. -/
def runBody (ext : Ext) (s0 : St) : JsResult :=
  match s0.dom.output with
  | none => .error ("Cannot set properties of null (setting innerText)", s0)
  | some _ =>
    let s1 := { s0 with dom := { s0.dom with output := some "0 Error Wasm World!" } }
    let s2 := logMessage "Starting run function" false s1
    let elements := ELEMENT_ROLES.map (fun r => (r, present s2.dom r))
    let s3 := logMessage (foundMsg elements.length ELEMENT_ROLES.length) false s2
    let missing := (elements.filter (fun p => !p.2)).map (fun p => roleKey p.1)
    if missing.length > 0 then
      .error ("Missing HTML elements: " ++ joinComma missing, s3)
    else
      let s4 := logMessage ("depthInput type: " ++ constructorName ElemRole.DEPTH) false s3
      let s5 := logMessage ("lengthInput type: " ++ constructorName ElemRole.LENGTH) false s4
      let s6 := logMessage ("drawButton type: " ++ constructorName ElemRole.DRAW) false s5
      let s7 := logMessage ("canvasElement type: " ++ constructorName ElemRole.CANVAS) false s6
      let s8 := setDepthField (jsIntToString (get_depth s7)) s7
      let s9 := setLengthField (jsFloatToString (get_length s8)) s8
      let s10 := [ElemRole.DEPTH, ElemRole.LENGTH, ElemRole.DRAW].foldl
        (fun acc r => addListenerTo r (logMessage ("Adding : " ++ roleId r) false acc)) s9
      updateTriangle ext s10

/-- `run()` (index.js:19): the try/catch boundary — any exception from the
body is logged as `Error in run function: <message>` with the error flag set.
The module-level `run().catch(...)` (index.js:72) can only fire if this catch
itself threw, which it cannot, so it is not modelled separately. -/
def run (ext : Ext) (s : St) : St :=
  match runBody ext s with
  | .ok s1 => s1
  | .error (msg, s1) => logMessage ("Error in run function: " ++ msg) true s1

/-- The trace prefix laid down by a successful bootstrap before (and
including) the listener attachments, as a function of the engine's stored
defaults. -/
def bootTrace (e : Engine) : List Ev :=
  [Ev.log "Starting run function" false,
   Ev.log (foundMsg 5 5) false,
   Ev.log ("depthInput type: " ++ constructorName ElemRole.DEPTH) false,
   Ev.log ("lengthInput type: " ++ constructorName ElemRole.LENGTH) false,
   Ev.log ("drawButton type: " ++ constructorName ElemRole.DRAW) false,
   Ev.log ("canvasElement type: " ++ constructorName ElemRole.CANVAS) false,
   Ev.setFieldDepth (jsIntToString e.depth),
   Ev.setFieldLength (jsFloatToString e.length),
   Ev.log ("Adding : " ++ roleId ElemRole.DEPTH) false,
   Ev.addListener ElemRole.DEPTH,
   Ev.log ("Adding : " ++ roleId ElemRole.LENGTH) false,
   Ev.addListener ElemRole.LENGTH,
   Ev.log ("Adding : " ++ roleId ElemRole.DRAW) false,
   Ev.addListener ElemRole.DRAW]

/-- The missing-role keys of a DOM, in `Object.entries` order, as computed by
the scan at index.js:32. -/
def missingKeys (d : Dom) : List String :=
  ((ELEMENT_ROLES.map (fun r => (r, present d r))).filter (fun p => !p.2)).map
    (fun p => roleKey p.1)

/-! ### Concrete states used to instantiate the theorems -/

/-- A healthy page: all five elements present, depth field "3", length field
"100", blank canvas, no listeners yet, engine holding the defaults 5 / 300. -/
def okDom : Dom :=
  { output := some "", depth := some "3", length := some "100", drawPresent := true,
    canvasPresent := true, canvas := [], listeners := [] }

def okSt : St :=
  { dom := okDom, engine := { depth := 5, length := JsFloat.num (mkRat 300 1) }, trace := [] }

/-- Depth field holds the non-numeric text "abc". -/
def badSt : St := { okSt with dom := { okDom with depth := some "abc" } }

/-- Depth field holds "-5", which `parseInt` accepts. -/
def negSt : St := { okSt with dom := { okDom with depth := some "-5" } }

/-- The OUTPUT element is missing; everything else is present. -/
def noOutputSt : St := { okSt with dom := { okDom with output := none } }

/-- OUTPUT present but DEPTH and CANVAS missing. -/
def missSt : St :=
  { okSt with dom := { okDom with depth := none, canvasPresent := false } }

/-- A page with none of the five elements. -/
def emptySt : St :=
  { dom := { output := none, depth := none, length := none, drawPresent := false,
             canvasPresent := false, canvas := [], listeners := [] },
    engine := { depth := 0, length := JsFloat.num (mkRat 0 1) }, trace := [] }

/-- Valid fields but the CANVAS element is missing. -/
def noCanvasSt : St := { okSt with dom := { okDom with canvasPresent := false } }

/-- External behaviour in which `main_js` throws (e.g. a wasm panic). -/
def extRenderFail : Ext :=
  { setDepthFail := none, setLengthFail := none,
    mainJsFail := some "RuntimeError: unreachable executed" }

/-! ### Helper lemmas about `updateTriangle` -/

/-- On a state whose two fields parse and whose canvas exists, with all
external calls returning normally, `updateTriangle` returns normally with the
engine holding the parsed pair, the canvas holding exactly one fresh render
pass with that pair, and the trace extended by commit-commit-clear-render. -/
theorem updateTriangle_valid_eq (s : St) (dv lv : String) (d : Int)
    (hd : s.dom.depth = some dv) (hl : s.dom.length = some lv)
    (hpd : js_parseInt dv = some d) (hpl : (js_parseFloat lv).isNaN = false)
    (hc : s.dom.canvasPresent = true) :
    updateTriangle extOk s = .ok
      { dom := { s.dom with canvas := [(d, js_parseFloat lv)] },
        engine := { depth := d, length := js_parseFloat lv },
        trace := s.trace ++ [Ev.setDepth d, Ev.setLength (js_parseFloat lv), Ev.clearRect,
          Ev.renderCall] } := by
  simp [updateTriangle, hd, hl, hpd, hpl, set_depth, set_length, main_js, clearCanvas, extOk, hc]

/-- On a state where either parse fails, `updateTriangle` (under any external
behaviour) only logs the validation error. -/
theorem updateTriangle_invalid_eq (ext : Ext) (s : St) (dv lv : String)
    (hd : s.dom.depth = some dv) (hl : s.dom.length = some lv)
    (hbad : ((js_parseInt dv).isNone || (js_parseFloat lv).isNaN) = true) :
    updateTriangle ext s = .ok (logMessage "Invalid input values" true s) := by
  simp [updateTriangle, hd, hl, hbad]

/-- On a state whose two fields parse but whose canvas is absent, with all
external calls returning normally, `updateTriangle` still commits both
parameters and still renders; only the clear is replaced by a non-error log
message. -/
theorem updateTriangle_nocanvas_eq (s : St) (dv lv : String) (d : Int)
    (hd : s.dom.depth = some dv) (hl : s.dom.length = some lv)
    (hpd : js_parseInt dv = some d) (hpl : (js_parseFloat lv).isNaN = false)
    (hc : s.dom.canvasPresent = false) :
    updateTriangle extOk s = .ok
      { dom := { s.dom with canvas := s.dom.canvas },
        engine := { depth := d, length := js_parseFloat lv },
        trace := s.trace ++ [Ev.setDepth d, Ev.setLength (js_parseFloat lv),
          Ev.log "Canvas element not found" false, Ev.renderCall] } := by
  simp [updateTriangle, hd, hl, hpd, hpl, set_depth, set_length, main_js, clearCanvas, extOk, hc,
    logMessage]

/-- Whatever the external behaviour and however it ends, `updateTriangle`
never writes the two input fields, never detaches a listener, never removes
the canvas element, and only appends to the trace. -/
theorem updateTriangle_frame (ext : Ext) (s : St) :
    (stateOf (updateTriangle ext s)).dom.depth = s.dom.depth
    ∧ (stateOf (updateTriangle ext s)).dom.length = s.dom.length
    ∧ (stateOf (updateTriangle ext s)).dom.canvasPresent = s.dom.canvasPresent
    ∧ (stateOf (updateTriangle ext s)).dom.listeners = s.dom.listeners
    ∧ ∃ tl, (stateOf (updateTriangle ext s)).trace = s.trace ++ tl := by
  cases hd : s.dom.depth with
  | none => simp [updateTriangle, hd, stateOf]
  | some dv =>
    cases hl : s.dom.length with
    | none => simp [updateTriangle, hd, hl, stateOf]
    | some lv =>
      cases hbad : ((js_parseInt dv).isNone || (js_parseFloat lv).isNaN) with
      | true =>
        cases ho : s.dom.output <;> simp [updateTriangle, hd, hl, hbad, stateOf, logMessage, ho]
      | false =>
        cases hsd : ext.setDepthFail with
        | some e => simp [updateTriangle, hd, hl, hbad, stateOf, set_depth, hsd]
        | none =>
          cases hsl : ext.setLengthFail with
          | some e => simp [updateTriangle, hd, hl, hbad, stateOf, set_depth, set_length, hsd, hsl]
          | none =>
            cases hmj : ext.mainJsFail with
            | some e =>
              cases hc : s.dom.canvasPresent <;>
                simp [updateTriangle, hd, hl, hbad, stateOf, set_depth, set_length, main_js,
                  clearCanvas, logMessage, hsd, hsl, hmj, hc]
            | none =>
              cases hc : s.dom.canvasPresent <;>
                simp [updateTriangle, hd, hl, hbad, stateOf, set_depth, set_length, main_js,
                  clearCanvas, logMessage, hsd, hsl, hmj, hc]

/-! ### Claim theorems -/

/-- C1: for every field state in which the DEPTH field parses as an integer
and the LENGTH field parses as a number, one `updateTriangle` invocation (the
engine calls returning normally, the canvas present as guaranteed by a
successful bootstrap) commits the parsed depth and then the parsed length to
the engine, clears the surface exactly once and invokes the render entry
point exactly once, in exactly that order. -/
theorem updateTriangle_commits_then_clears_then_renders (s : St) (dv lv : String) (d : Int)
    (hd : s.dom.depth = some dv) (hl : s.dom.length = some lv)
    (hpd : js_parseInt dv = some d) (hpl : (js_parseFloat lv).isNaN = false)
    (hc : s.dom.canvasPresent = true) :
    traceOf (updateTriangle extOk s)
      = s.trace ++ [Ev.setDepth d, Ev.setLength (js_parseFloat lv), Ev.clearRect,
          Ev.renderCall] := by
  simp [traceOf, stateOf, updateTriangle_valid_eq s dv lv d hd hl hpd hpl hc]

/-- Witness for C1 at depth "3", length "100". -/
theorem updateTriangle_commits_then_clears_then_renders_witness :
    traceOf (updateTriangle extOk okSt)
      = okSt.trace ++ [Ev.setDepth 3, Ev.setLength (js_parseFloat "100"), Ev.clearRect,
          Ev.renderCall] :=
  updateTriangle_commits_then_clears_then_renders okSt "3" "100" 3 rfl rfl (by decide)
    (by decide) rfl

/-- C2: whenever either field fails numeric parsing, `updateTriangle` (under
any external behaviour) performs no commit, no clear and no render, leaves
the engine and the canvas untouched, and produces exactly one log entry,
namely the validation error "Invalid input values". -/
theorem updateTriangle_invalid_input_only_logs (ext : Ext) (s : St) (dv lv : String)
    (hd : s.dom.depth = some dv) (hl : s.dom.length = some lv)
    (hbad : ((js_parseInt dv).isNone || (js_parseFloat lv).isNaN) = true) :
    traceOf (updateTriangle ext s) = s.trace ++ [Ev.log "Invalid input values" true]
    ∧ (stateOf (updateTriangle ext s)).engine = s.engine
    ∧ (stateOf (updateTriangle ext s)).dom.canvas = s.dom.canvas := by
  cases ho : s.dom.output <;>
    simp [traceOf, stateOf, updateTriangle_invalid_eq ext s dv lv hd hl hbad, logMessage, ho]

/-- Witness for C2 at depth "abc", length "100". -/
theorem updateTriangle_invalid_input_only_logs_witness :
    traceOf (updateTriangle extOk badSt) = badSt.trace ++ [Ev.log "Invalid input values" true]
    ∧ (stateOf (updateTriangle extOk badSt)).engine = badSt.engine
    ∧ (stateOf (updateTriangle extOk badSt)).dom.canvas = badSt.dom.canvas :=
  updateTriangle_invalid_input_only_logs extOk badSt "abc" "100" rfl rfl (by decide)

/-- C10: when both fields parse but the CANVAS element is absent at update
time, `updateTriangle` still commits both parameters and still invokes the
render entry point; only the clear is skipped, replaced by the non-error log
message "Canvas element not found". -/
theorem updateTriangle_missing_canvas_still_renders (s : St) (dv lv : String) (d : Int)
    (hd : s.dom.depth = some dv) (hl : s.dom.length = some lv)
    (hpd : js_parseInt dv = some d) (hpl : (js_parseFloat lv).isNaN = false)
    (hc : s.dom.canvasPresent = false) :
    traceOf (updateTriangle extOk s)
      = s.trace ++ [Ev.setDepth d, Ev.setLength (js_parseFloat lv),
          Ev.log "Canvas element not found" false, Ev.renderCall]
    ∧ (stateOf (updateTriangle extOk s)).engine
      = { depth := d, length := js_parseFloat lv } := by
  simp [traceOf, stateOf, updateTriangle_nocanvas_eq s dv lv d hd hl hpd hpl hc]

/-- Witness for C10 at depth "3", length "100" with the canvas removed. -/
theorem updateTriangle_missing_canvas_still_renders_witness :
    traceOf (updateTriangle extOk noCanvasSt)
      = noCanvasSt.trace ++ [Ev.setDepth 3, Ev.setLength (js_parseFloat "100"),
          Ev.log "Canvas element not found" false, Ev.renderCall]
    ∧ (stateOf (updateTriangle extOk noCanvasSt)).engine
      = { depth := 3, length := js_parseFloat "100" } :=
  updateTriangle_missing_canvas_still_renders noCanvasSt "3" "100" 3 rfl rfl (by decide)
    (by decide) rfl

/-- C8: the log operation always records the message on the console channel;
when the OUTPUT area exists it appends `message + newline` to it exactly when
the error flag is set, and otherwise leaves it untouched — so the visible
text only ever grows by appending. -/
theorem logMessage_always_traces_appends_iff_error (msg : String) (isErr : Bool) (s : St)
    (t : String) (hout : s.dom.output = some t) :
    (∀ s2 : St, (logMessage msg isErr s2).trace = s2.trace ++ [Ev.log msg isErr])
    ∧ (logMessage msg isErr s).dom.output = some (if isErr then t ++ msg ++ "\n" else t) := by
  constructor
  · intro s2; simp [logMessage]
  · cases isErr <;> simp [logMessage, hout]

/-- Witness for C8 at a concrete message and state. -/
theorem logMessage_always_traces_appends_iff_error_witness :
    (∀ s2 : St, (logMessage "hello" true s2).trace = s2.trace ++ [Ev.log "hello" true])
    ∧ (logMessage "hello" true okSt).dom.output
      = some (if true then "" ++ "hello" ++ "\n" else "") :=
  logMessage_always_traces_appends_iff_error "hello" true okSt "" rfl

/-- C5 counterexample: the field state depth = "-5", length = "100" parses
(JS `parseInt("-5") = -5`), so `updateTriangle` forwards the commit
`set_depth(-5)` to the engine even though `-5 < 0`, violating the claimed
RenderParameters invariant `depth ≥ 0`. -/
theorem negative_depth_forwarded_to_engine :
    Ev.setDepth (-5) ∈ traceOf (updateTriangle extOk negSt) ∧ ((-5 : Int) < 0) := by
  decide

/-- C5 (amended): every value forwarded to the engine by the commit
operations is exactly a successful parse result of the corresponding field,
and commits happen only when both fields parse — but no sign constraint is
enforced. -/
theorem commits_carry_exactly_the_parsed_values (ext : Ext) (s : St) (dv lv : String)
    (hd : s.dom.depth = some dv) (hl : s.dom.length = some lv) (htr : s.trace = []) :
    (∀ d : Int, Ev.setDepth d ∈ traceOf (updateTriangle ext s) →
        js_parseInt dv = some d ∧ (js_parseFloat lv).isNaN = false)
    ∧ (∀ l : JsFloat, Ev.setLength l ∈ traceOf (updateTriangle ext s) →
        js_parseFloat lv = l ∧ (js_parseInt dv).isNone = false) := by
  cases hpd : js_parseInt dv with
  | none =>
    cases ho : s.dom.output <;>
      simp [traceOf, stateOf, updateTriangle, hd, hl, hpd, htr, logMessage, ho]
  | some d0 =>
    cases hpl : (js_parseFloat lv).isNaN with
    | true =>
      cases ho : s.dom.output <;>
        simp [traceOf, stateOf, updateTriangle, hd, hl, hpd, hpl, htr, logMessage, ho]
    | false =>
      cases hsd : ext.setDepthFail with
      | some e =>
        simp [traceOf, stateOf, updateTriangle, hd, hl, hpd, hpl, htr, set_depth, hsd]
      | none =>
        cases hsl : ext.setLengthFail with
        | some e =>
          constructor <;> intro x hx <;>
            simp_all [traceOf, stateOf, updateTriangle, hd, hl, hpd, hpl, htr, set_depth,
              set_length, hsd, hsl]
        | none =>
          cases hmj : ext.mainJsFail with
          | some e =>
            cases hc : s.dom.canvasPresent <;> constructor <;> intro x hx <;>
              simp_all [traceOf, stateOf, updateTriangle, hd, hl, hpd, hpl, htr, set_depth,
                set_length, main_js, clearCanvas, logMessage, hsd, hsl, hmj, hc]
          | none =>
            cases hc : s.dom.canvasPresent <;> constructor <;> intro x hx <;>
              simp_all [traceOf, stateOf, updateTriangle, hd, hl, hpd, hpl, htr, set_depth,
                set_length, main_js, clearCanvas, logMessage, hsd, hsl, hmj, hc]

/-- Witness for C5 (amended) at depth "3", length "100". -/
theorem commits_carry_exactly_the_parsed_values_witness :
    (js_parseInt "3" = some 3 ∧ (js_parseFloat "100").isNaN = false)
    ∧ (js_parseFloat "100" = js_parseFloat "100" ∧ (js_parseInt "3").isNone = false) :=
  ⟨(commits_carry_exactly_the_parsed_values extOk okSt "3" "100" rfl rfl rfl).1 3 (by decide),
   (commits_carry_exactly_the_parsed_values extOk okSt "3" "100" rfl rfl rfl).2
     (js_parseFloat "100") (by decide)⟩

/-- C3 counterexample: the listener attached to the DEPTH field is plain
`updateTriangle` with no debouncing, so a burst of two input events on the
depth field yields two render executions, where the claim demands exactly
one. -/
theorem two_depth_events_two_renders :
    (inputEvent extOk (inputEvent extOk okSt)).trace.countP isRenderEv = 2
    ∧ ¬ (inputEvent extOk (inputEvent extOk okSt)).trace.countP isRenderEv = 1 := by
  decide

/-- C3 (amended): all three controls are wired directly to `updateTriangle`
with no debounce anywhere, so a burst of `n` input events on a valid state
executes the action immediately each time: exactly `n` renders, not one. -/
theorem input_burst_renders_once_per_event (n : Nat) (s : St) (dv lv : String) (d : Int)
    (hd : s.dom.depth = some dv) (hl : s.dom.length = some lv)
    (hpd : js_parseInt dv = some d) (hpl : (js_parseFloat lv).isNaN = false)
    (hc : s.dom.canvasPresent = true) :
    ((inputEvent extOk)^[n] s).trace.countP isRenderEv = s.trace.countP isRenderEv + n := by
  induction n generalizing s with
  | zero => simp
  | succ n ih =>
    rw [Function.iterate_succ_apply]
    have hstep := updateTriangle_valid_eq s dv lv d hd hl hpd hpl hc
    have hds : (inputEvent extOk s).dom.depth = some dv := by
      simp [inputEvent, hstep, stateOf, hd]
    have hls : (inputEvent extOk s).dom.length = some lv := by
      simp [inputEvent, hstep, stateOf, hl]
    have hcs : (inputEvent extOk s).dom.canvasPresent = true := by
      simp [inputEvent, hstep, stateOf, hc]
    have htr : (inputEvent extOk s).trace
        = s.trace ++ [Ev.setDepth d, Ev.setLength (js_parseFloat lv), Ev.clearRect,
            Ev.renderCall] := by
      simp [inputEvent, hstep, stateOf]
    rw [ih (inputEvent extOk s) hds hls hcs, htr]
    simp [List.countP_append, List.countP_cons, isRenderEv]
    omega

/-- Witness for C3 (amended) with a burst of two events. -/
theorem input_burst_renders_once_per_event_witness :
    ((inputEvent extOk)^[2] okSt).trace.countP isRenderEv = okSt.trace.countP isRenderEv + 2 :=
  input_burst_renders_once_per_event 2 okSt "3" "100" 3 rfl rfl (by decide) (by decide) rfl

/-- C4 counterexample: when the OUTPUT role alone is absent, `run` throws at
the very first statement (writing the banner into the missing OUTPUT
element), before any element lookup, so bootstrap fails with a generic
TypeError log entry that does not contain the missing role name "OUTPUT". -/
theorem missing_output_role_not_named_in_log :
    (run extOk noOutputSt).trace
      = [Ev.log "Error in run function: Cannot set properties of null (setting innerText)" true]
    ∧ strContains "Error in run function: Cannot set properties of null (setting innerText)"
        "OUTPUT" = false := by
  decide

/-- A string occurs in itself followed by anything. -/
theorem isPrefixOf_self_append (l t : List Char) : l.isPrefixOf (l ++ t) = true := by
  induction l with
  | nil => simp [List.isPrefixOf]
  | cons a as ih => simp [List.isPrefixOf, ih]

/-- Reflexivity of the character-list prefix test. -/
theorem isPrefixOf_refl_chars (l : List Char) : l.isPrefixOf l = true := by
  induction l with
  | nil => simp [List.isPrefixOf]
  | cons a as ih => simp [List.isPrefixOf, ih]

/-- String concatenation acts as list concatenation on the characters. -/
theorem data_append (a b : String) : (a ++ b).data = a.data ++ b.data := rfl

/-- Dropping past the first summand of a concatenation. -/
theorem drop_length_add (l1 l2 : List Char) (i : Nat) :
    (l1 ++ l2).drop (l1.length + i) = l2.drop i := by
  induction l1 with
  | nil => simp
  | cons a as ih => simp [Nat.succ_add, ih]

/-- A prefix of some suffix of `hay` makes `strContains` true. -/
theorem strContains_of_prefix_drop (hay sub : String) (i : Nat)
    (h : sub.data.isPrefixOf (hay.data.drop i) = true) : strContains hay sub = true := by
  unfold strContains
  rw [List.any_eq_true]
  rcases le_or_lt i hay.data.length with hle | hlt
  · exact ⟨i, List.mem_range.mpr (Nat.lt_succ_of_le hle), h⟩
  · have hd : hay.data.drop i = [] := List.drop_eq_nil_of_le (le_of_lt hlt)
    rw [hd] at h
    have hsub : sub.data = [] := by
      cases hs : sub.data with
      | nil => rfl
      | cons a as => rw [hs] at h; exact absurd h (by simp [List.isPrefixOf])
    exact ⟨0, List.mem_range.mpr (Nat.succ_pos _), by simp [hsub, List.isPrefixOf]⟩

/-- Characters of a two-or-more-element comma join. -/
theorem joinComma_cons_cons (x y : String) (r : List String) :
    (joinComma (x :: y :: r)).data = x.data ++ ',' :: (joinComma (y :: r)).data := by
  show ((x ++ ",") ++ joinComma (y :: r)).data = _
  rw [data_append, data_append]
  simp

/-- Every member of a comma join starts at some offset of the join. -/
theorem joinComma_mem_isPrefixOf_drop (names : List String) (k : String) (h : k ∈ names) :
    ∃ i, k.data.isPrefixOf ((joinComma names).data.drop i) = true := by
  induction names with
  | nil => cases h
  | cons x xs ih =>
    cases h with
    | head =>
      cases xs with
      | nil => exact ⟨0, by simp [joinComma, isPrefixOf_refl_chars]⟩
      | cons y r =>
        refine ⟨0, ?_⟩
        rw [List.drop_zero, joinComma_cons_cons]
        exact isPrefixOf_self_append _ _
    | tail _ hmem =>
      cases xs with
      | nil => cases hmem
      | cons y r =>
        obtain ⟨i, hi⟩ := ih hmem
        refine ⟨x.data.length + (i + 1), ?_⟩
        rw [joinComma_cons_cons, drop_length_add, List.drop_succ_cons]
        exact hi

/-- Every member of a comma join is a substring of any string that ends with
the join. -/
theorem strContains_append_joinComma (p : String) (names : List String) (k : String)
    (h : k ∈ names) : strContains (p ++ joinComma names) k = true := by
  obtain ⟨i, hi⟩ := joinComma_mem_isPrefixOf_drop names k h
  exact strContains_of_prefix_drop _ _ (p.data.length + i)
    (by rw [data_append, drop_length_add]; exact hi)

/-- C4 (amended): for every subset of absent roles that leaves OUTPUT
present, bootstrap fails with no listener attached and no render issued, and
the log holds exactly one error entry, which names all the absent roles at
once. -/
theorem run_missing_roles_one_aggregated_error_entry (ext : Ext) (s : St) (t : String)
    (hout : s.dom.output = some t) (hmiss : missingKeys s.dom ≠ [])
    (htr : s.trace = []) (hlis : s.dom.listeners = []) :
    (run ext s).dom.listeners = []
    ∧ (run ext s).trace.countP isRenderEv = 0
    ∧ (run ext s).trace.countP isListenerEv = 0
    ∧ (run ext s).trace.countP isErrorLogEv = 1
    ∧ Ev.log ("Error in run function: "
        ++ ("Missing HTML elements: " ++ joinComma (missingKeys s.dom))) true
        ∈ (run ext s).trace
    ∧ ∀ k ∈ missingKeys s.dom,
        strContains ("Error in run function: "
          ++ ("Missing HTML elements: " ++ joinComma (missingKeys s.dom))) k = true := by
  obtain ⟨⟨out, dep, len, dr, cv, cnv, lis⟩, eng, tr⟩ := s
  simp only at hout htr hlis hmiss ⊢
  subst hout htr hlis
  have herr : runBody ext ⟨⟨some t, dep, len, dr, cv, cnv, []⟩, eng, []⟩
      = .error ("Missing HTML elements: "
          ++ joinComma (missingKeys ⟨some t, dep, len, dr, cv, cnv, []⟩),
        ⟨⟨some "0 Error Wasm World!", dep, len, dr, cv, cnv, []⟩, eng,
          [Ev.log "Starting run function" false, Ev.log (foundMsg 5 5) false]⟩) := by
    simp only [runBody, logMessage, missingKeys, present, ELEMENT_ROLES]
    split
    · simp [missingKeys, present, ELEMENT_ROLES]
    · rename_i hcond
      exact absurd (by simpa [missingKeys, present, ELEMENT_ROLES,
        List.length_eq_zero] using Nat.le_of_not_lt hcond) hmiss
  refine ⟨?_, ?_, ?_, ?_, ?_, ?_⟩
  · simp [run, herr, logMessage]
  · simp [run, herr, logMessage, isRenderEv]
  · simp [run, herr, logMessage, isListenerEv]
  · simp [run, herr, logMessage, isErrorLogEv]
  · simp [run, herr, logMessage]
  · intro k hk
    rw [← String.append_assoc]
    exact strContains_append_joinComma _ _ k hk

/-- Witness for C4 (amended) with DEPTH and CANVAS absent. -/
theorem run_missing_roles_one_aggregated_error_entry_witness :
    (run extOk missSt).dom.listeners = []
    ∧ (run extOk missSt).trace.countP isRenderEv = 0
    ∧ (run extOk missSt).trace.countP isListenerEv = 0
    ∧ (run extOk missSt).trace.countP isErrorLogEv = 1
    ∧ Ev.log ("Error in run function: "
        ++ ("Missing HTML elements: " ++ joinComma (missingKeys missSt.dom))) true
        ∈ (run extOk missSt).trace
    ∧ ∀ k ∈ missingKeys missSt.dom,
        strContains ("Error in run function: "
          ++ ("Missing HTML elements: " ++ joinComma (missingKeys missSt.dom))) k = true :=
  run_missing_roles_one_aggregated_error_entry extOk missSt "" rfl (by decide) rfl rfl

/-- `logMessage` never touches the depth field. -/
theorem logMessage_dom_depth (msg : String) (b : Bool) (st : St) :
    (logMessage msg b st).dom.depth = st.dom.depth := by
  cases ho : st.dom.output <;> cases b <;> simp [logMessage, ho]

/-- `logMessage` never touches the length field. -/
theorem logMessage_dom_length (msg : String) (b : Bool) (st : St) :
    (logMessage msg b st).dom.length = st.dom.length := by
  cases ho : st.dom.output <;> cases b <;> simp [logMessage, ho]

/-- `logMessage` appends exactly one trace event. -/
theorem logMessage_trace (msg : String) (b : Bool) (st : St) :
    (logMessage msg b st).trace = st.trace ++ [Ev.log msg b] := by
  cases ho : st.dom.output <;> cases b <;> simp [logMessage, ho]

/-- C6 (amended): every exception raised during bootstrap — including the
initial render — is caught by `run`'s boundary and logged; but an exception
raised inside `updateTriangle` while processing a later input event escapes
the listener uncaught, producing no error log entry at all. -/
theorem bootstrap_errors_logged_input_event_errors_escape (ext : Ext) (s : St) :
    (∀ m s1, runBody ext s = .error (m, s1) →
        run ext s = logMessage ("Error in run function: " ++ m) true s1)
    ∧ (∀ m s1, updateTriangle ext s = .error (m, s1) →
        s1.trace.countP isErrorLogEv = s.trace.countP isErrorLogEv) := by
  constructor
  · intro m s1 h
    simp [run, h]
  · intro m s1 h
    cases hd : s.dom.depth with
    | none =>
      simp only [updateTriangle, hd] at h
      obtain ⟨-, rfl⟩ := h
      rfl
    | some dv =>
      cases hl : s.dom.length with
      | none =>
        simp only [updateTriangle, hd, hl] at h
        obtain ⟨-, rfl⟩ := h
        rfl
      | some lv =>
        cases hbad : ((js_parseInt dv).isNone || (js_parseFloat lv).isNaN) with
        | true => simp [updateTriangle, hd, hl, hbad] at h
        | false =>
          cases hsd : ext.setDepthFail with
          | some e =>
            simp [updateTriangle, hd, hl, hbad, set_depth, hsd] at h
            obtain ⟨-, rfl⟩ := h
            simp [List.countP_append, isErrorLogEv]
          | none =>
            cases hsl : ext.setLengthFail with
            | some e =>
              simp [updateTriangle, hd, hl, hbad, set_depth, set_length, hsd, hsl] at h
              obtain ⟨-, rfl⟩ := h
              simp [List.countP_append, isErrorLogEv]
            | none =>
              cases hmj : ext.mainJsFail with
              | some e =>
                cases hc : s.dom.canvasPresent <;>
                  simp [updateTriangle, hd, hl, hbad, set_depth, set_length, main_js,
                    clearCanvas, logMessage, hsd, hsl, hmj, hc] at h <;>
                  (obtain ⟨-, rfl⟩ := h) <;>
                  simp [List.countP_append, isErrorLogEv]
              | none =>
                cases hc : s.dom.canvasPresent <;>
                  simp [updateTriangle, hd, hl, hbad, set_depth, set_length, main_js,
                    clearCanvas, logMessage, hsd, hsl, hmj, hc] at h

/-- Witness for C6 (amended): on a page with no elements at all, both the
bootstrap body and the input handler throw, exercising both halves. -/
theorem bootstrap_errors_logged_input_event_errors_escape_witness :
    run extOk emptySt = logMessage
      ("Error in run function: " ++ "Cannot set properties of null (setting innerText)")
      true emptySt
    ∧ emptySt.trace.countP isErrorLogEv = emptySt.trace.countP isErrorLogEv :=
  ⟨(bootstrap_errors_logged_input_event_errors_escape extOk emptySt).1
      "Cannot set properties of null (setting innerText)" emptySt rfl,
   (bootstrap_errors_logged_input_event_errors_escape extOk emptySt).2
      "Cannot read properties of null (reading value)" emptySt rfl⟩

/-- C6 counterexample: with valid fields, a render call that throws (as a
wasm panic does) makes `updateTriangle` itself throw — the exception escapes
the input listener and the whole trace holds not a single error log entry,
refuting the claim that every input-processing exception is caught and
logged. -/
theorem render_exception_escapes_unlogged :
    exceptOk (updateTriangle extRenderFail okSt) = false
    ∧ (traceOf (updateTriangle extRenderFail okSt)).countP isErrorLogEv = 0 := by
  decide

/-- C7: invoking `updateTriangle` twice in a row on the same field state
yields the same engine state and the same canvas content as invoking it once,
whatever the external behaviour. -/
theorem updateTriangle_idempotent_on_engine_and_canvas (ext : Ext) (s : St) :
    ((inputEvent ext (inputEvent ext s)).engine, (inputEvent ext (inputEvent ext s)).dom.canvas)
      = ((inputEvent ext s).engine, (inputEvent ext s).dom.canvas) := by
  obtain ⟨⟨out, dep, len, dr, cv, cnv, lis⟩, ⟨ed, el⟩, tr⟩ := s
  cases dep with
  | none => simp [inputEvent, stateOf, updateTriangle]
  | some dv =>
    cases len with
    | none => simp [inputEvent, stateOf, updateTriangle]
    | some lv =>
      cases hpd : js_parseInt dv with
      | none => cases out <;> simp [inputEvent, stateOf, updateTriangle, hpd, logMessage]
      | some d0 =>
        cases hpl : (js_parseFloat lv).isNaN with
        | true =>
          cases out <;> simp [inputEvent, stateOf, updateTriangle, hpd, hpl, logMessage]
        | false =>
          obtain ⟨sdf, slf, mjf⟩ := ext
          cases sdf with
          | some e => simp [inputEvent, stateOf, updateTriangle, hpd, hpl, set_depth]
          | none =>
            cases slf with
            | some e =>
              simp [inputEvent, stateOf, updateTriangle, hpd, hpl, set_depth, set_length]
            | none =>
              cases mjf with
              | some e =>
                cases cv <;> simp [inputEvent, stateOf, updateTriangle, hpd, hpl, set_depth,
                  set_length, clearCanvas, main_js, logMessage]
              | none =>
                cases cv <;> simp [inputEvent, stateOf, updateTriangle, hpd, hpl, set_depth,
                  set_length, clearCanvas, main_js, logMessage]

/-- C9: on a page with all five elements, `run` copies the engine's stored
depth and length into the two input fields, and does so before any listener
is attached: the bootstrap trace prefix has both field writes strictly before
the three listener attachments, and the fields still hold those values when
`run` returns. -/
theorem run_seeds_fields_from_engine_before_listeners (ext : Ext) (s : St) (t dv lv : String)
    (hout : s.dom.output = some t) (hd : s.dom.depth = some dv) (hl : s.dom.length = some lv)
    (hdr : s.dom.drawPresent = true) (hc : s.dom.canvasPresent = true)
    (htr : s.trace = []) (hlis : s.dom.listeners = []) :
    (run ext s).dom.depth = some (jsIntToString s.engine.depth)
    ∧ (run ext s).dom.length = some (jsFloatToString s.engine.length)
    ∧ ∃ tail, (run ext s).trace = bootTrace s.engine ++ tail := by
  obtain ⟨⟨out, dep, len, dr, cv, cnv, lis⟩, ⟨ed, el⟩, tr⟩ := s
  simp only at hout hd hl hdr hc htr hlis ⊢
  subst hout hd hl hdr hc htr hlis
  have hrb : runBody ext ⟨⟨some t, some dv, some lv, true, true, cnv, []⟩, ⟨ed, el⟩, []⟩
      = updateTriangle ext
        ⟨⟨some "0 Error Wasm World!", some (jsIntToString ed), some (jsFloatToString el),
          true, true, cnv, [ElemRole.DEPTH, ElemRole.LENGTH, ElemRole.DRAW]⟩,
         ⟨ed, el⟩, bootTrace ⟨ed, el⟩⟩ := by
    simp [runBody, logMessage, setDepthField, setLengthField, addListenerTo, get_depth,
      get_length, present, ELEMENT_ROLES, bootTrace]
  obtain ⟨hfd, hfl, hfc, hfls, tl, htl⟩ := updateTriangle_frame ext
    ⟨⟨some "0 Error Wasm World!", some (jsIntToString ed), some (jsFloatToString el),
      true, true, cnv, [ElemRole.DEPTH, ElemRole.LENGTH, ElemRole.DRAW]⟩,
     ⟨ed, el⟩, bootTrace ⟨ed, el⟩⟩
  cases hut : updateTriangle ext
      ⟨⟨some "0 Error Wasm World!", some (jsIntToString ed), some (jsFloatToString el),
        true, true, cnv, [ElemRole.DEPTH, ElemRole.LENGTH, ElemRole.DRAW]⟩,
       ⟨ed, el⟩, bootTrace ⟨ed, el⟩⟩ with
  | ok s1 =>
    rw [hut] at hfd hfl htl
    simp only [stateOf] at hfd hfl htl
    have hrun : run ext ⟨⟨some t, some dv, some lv, true, true, cnv, []⟩, ⟨ed, el⟩, []⟩ = s1 := by
      simp [run, hrb, hut]
    rw [hrun]
    exact ⟨hfd, hfl, tl, htl⟩
  | error e =>
    obtain ⟨m, s1⟩ := e
    rw [hut] at hfd hfl htl
    simp only [stateOf] at hfd hfl htl
    have hrun : run ext ⟨⟨some t, some dv, some lv, true, true, cnv, []⟩, ⟨ed, el⟩, []⟩
        = logMessage ("Error in run function: " ++ m) true s1 := by
      simp [run, hrb, hut]
    rw [hrun]
    refine ⟨?_, ?_, tl ++ [Ev.log ("Error in run function: " ++ m) true], ?_⟩
    · rw [logMessage_dom_depth]; exact hfd
    · rw [logMessage_dom_length]; exact hfl
    · rw [logMessage_trace, htl, List.append_assoc]

/-- Witness for C9 on a concrete all-present page with engine defaults 5 and
300. -/
theorem run_seeds_fields_from_engine_before_listeners_witness :
    (run extOk okSt).dom.depth = some (jsIntToString okSt.engine.depth)
    ∧ (run extOk okSt).dom.length = some (jsFloatToString okSt.engine.length)
    ∧ ∃ tail, (run extOk okSt).trace = bootTrace okSt.engine ++ tail :=
  run_seeds_fields_from_engine_before_listeners extOk okSt "" "3" "100" rfl rfl rfl rfl rfl
    rfl rfl

end WasmCtl
